import Mathlib

/-!
Verification of the PlayDex NBA clip-search backend.

The definitions below are a shallow embedding of the Python sources under
`backend/app`:
  * `PlayDex.EntityExtractor` embeds
    `app/services/playdex_engine/entity_extractor.py` and the lexicon tables of
    `app/services/playdex_engine/keywords_constants.py`;
  * `PlayDex.VideoSearch` embeds the classification / merge / paginate logic of
    `app/services/video_search.py`;
  * `PlayDex.Endpoint` embeds the fallback orchestration of
    `app/api/v1/endpoints/search.py`;
  * `PlayDex.Engine` embeds `app/services/playdex_engine/search_engine.py`
    together with `app/services/playdex_engine/utils.py`.

Python strings are modelled as `String` / `List Char`; `re` word-boundary
searches (`\b...\b`) are implemented character by character; pandas DataFrames
become lists of row structures and boolean-mask filtering becomes
`List.filter`.
-/

namespace PlayDex

/-- Word characters of Python's `re` module (`\w`): letters, digits or
underscore (ASCII queries; used for the `\b` word-boundary checks below). -/
def isWordChar (c : Char) : Bool := c.isAlphanum || c = '_'

/-- Boolean check that the first list is an initial segment of the second
(the anchored part of a regex literal match). -/
def startsWithChars : List Char → List Char → Bool
  | [], _ => true
  | _ :: _, [] => false
  | a :: as, b :: bs => a == b && startsWithChars as bs

/-- Plain substring containment, as Python's `needle in haystack`. -/
def containsChars (pat : List Char) : List Char → Bool
  | [] => startsWithChars pat []
  | c :: cs => startsWithChars pat (c :: cs) || containsChars pat cs

/-- Lower-case a string character-wise, as Python's `str.lower()`. -/
def lowerChars (s : String) : List Char := s.toList.map Char.toLower

/-- Upper-case a string character-wise, as Python's `str.upper()`. -/
def upperChars (s : String) : List Char := s.toList.map Char.toUpper

/-- Case-insensitive substring containment:
Python's `needle in s.lower()` with a lowercase needle (and pandas
`.str.contains(needle, case=False)`). -/
def containsCI (needle : String) (s : String) : Bool :=
  containsChars needle.toList (s.toList.map Char.toLower)

/-- A `\b` word boundary holds before the current position when the previous
character (if any) is not a word character — for patterns starting with a
word character, as every lexicon phrase here does. -/
def prevOk (prev : Option Char) : Bool :=
  match prev with
  | none => true
  | some c => !isWordChar c

/-- A `\b` word boundary holds after a match when the next character (if any)
is not a word character — for patterns ending with a word character. -/
def boundaryAfter (rest : List Char) : Bool :=
  match rest with
  | [] => true
  | c :: _ => !isWordChar c

/-- Literal match of `phrase` at the head of `cs`, closed by a `\b` boundary. -/
def matchPhraseAt (phrase : List Char) (cs : List Char) : Bool :=
  startsWithChars phrase cs && boundaryAfter (cs.drop phrase.length)

/-- `re.search(rf"\b{re.escape(phrase)}\b", text)` as a scan over `text`:
`prev` is the character just before the current position (`none` at the
start of the string). -/
def wbSearchFrom (phrase : List Char) : Option Char → List Char → Bool
  | _, [] => false
  | prev, c :: cs =>
    (prevOk prev && matchPhraseAt phrase (c :: cs)) || wbSearchFrom phrase (some c) cs

/-- Whole-string word-boundary search for a (non-empty) lexicon phrase. -/
def wbSearch (phrase : String) (text : List Char) : Bool :=
  wbSearchFrom phrase.toList none text

/-- Association-list lookup, as Python's `dict.get(key)` (`None` if absent). -/
def lookupAssoc {β : Type} (key : String) : List (String × β) → Option β
  | [] => none
  | (k, v) :: rest => if k = key then some v else lookupAssoc key rest

end PlayDex

namespace PlayDex.EntityExtractor

/-- The `CLUTCH_TIME_MAP` table of `keywords_constants.py`, in dict insertion
order. -/
def CLUTCH_TIME_MAP : List (String × String) :=
  [("clutch", "Last 5 Minutes"),
   ("last minute", "Last 1 Minute"),
   ("final minute", "Last 1 Minute"),
   ("end of the game", "Last 5 Minutes"),
   ("last second", "Last 10 Seconds"),
   ("final seconds", "Last 10 Seconds"),
   ("last 10 seconds", "Last 10 Seconds")]

/-- The `SCORE_SPECIFIER_MAP` table of `keywords_constants.py`, in dict
insertion order (the duplicated `'go-ahead'` literal collapses to its first
occurrence, as in a Python dict). -/
def SCORE_SPECIFIER_MAP : List (String × String) :=
  [("game-tying", "GT"), ("game tying", "GT"), ("tying", "GT"),
   ("lead-taking", "LT"), ("lead taking", "LT"), ("lead-taker", "LT"),
   ("lead taker", "LT"), ("lead-takers", "LT"), ("lead takers", "LT"),
   ("go ahead", "LT"), ("go-ahead", "LT"), ("go-aheads", "LT"),
   ("go aheads", "LT"),
   ("buzzer beater", "BB"), ("buzzer-beater", "BB"),
   ("buzzer beaters", "BB"), ("buzzer-beaters", "BB"),
   ("game winner", "GW"), ("game-winner", "GW"),
   ("game winners", "GW"), ("game-winners", "GW")]

/-- Index of `x` in the list starting at `i`, `999` when absent:
`priority_order.index(x) if x in priority_order else 999` of
`_extract_clutch_time`. -/
def indexFrom (x : String) (i : Nat) : List String → Nat
  | [] => 999
  | y :: ys => if y = x then i else indexFrom x (i + 1) ys

/-- The fixed priority order of `_extract_clutch_time`
(most specific window first). -/
def priority_order : List String :=
  ["Last 10 Seconds", "Last 1 Minute", "Last 5 Minutes"]

/-- Priority key of a clutch window value. -/
def priorityKey (x : String) : Nat := indexFrom x 0 priority_order

/-- The clutch windows whose phrase matches the (lowered) query, collected in
`CLUTCH_TIME_MAP` iteration order — the `matches` list of
`_extract_clutch_time`. -/
def clutchMatches (lowerQuery : List Char) : List String :=
  (CLUTCH_TIME_MAP.filter (fun p => wbSearch p.1 lowerQuery)).map (·.2)

/-- Leftmost element of `m :: ms` with the smallest `priorityKey` — the value
of `sorted(set(matches), key=...)[0]`: all windows in `CLUTCH_TIME_MAP` have
pairwise distinct priority keys, so the minimum is independent of Python's
set iteration order. -/
def minByPriority (m : String) (ms : List String) : String :=
  ms.foldl (fun best x => if priorityKey x < priorityKey best then x else best) m

/-- Embedding of `EntityExtractor._extract_clutch_time`
(`entity_extractor.py`): collect
every word-boundary phrase match of `CLUTCH_TIME_MAP` against the lowered
query, return `none` when nothing matched, otherwise the matched window of
highest priority (smallest time span). -/
def extract_clutch_time (query : String) : Option String :=
  match clutchMatches (lowerChars query) with
  | [] => none
  | m :: ms => some (minByPriority m ms)

/-- Embedding of `EntityExtractor._extract_score_specifiers`
(`entity_extractor.py`):
collect every word-boundary phrase match of `SCORE_SPECIFIER_MAP` against the
query in map iteration order, return `none` when nothing matched, otherwise
the first collected code. -/
def extract_score_specifiers (query : String) : Option String :=
  ((SCORE_SPECIFIER_MAP.filter (fun p => wbSearch p.1 query.toList)).map (·.2)).head?

/-- Numeric value of a decimal digit character. -/
def digitVal (c : Char) : Nat := c.toNat - '0'.toNat

/-- Try to read `20\d{2}` at the head of the list; on success return the year
and the remaining characters. -/
def matchYearDigits : List Char → Option (Nat × List Char)
  | '2' :: '0' :: c :: d :: rest =>
    if c.isDigit && d.isDigit then
      some (2000 + 10 * digitVal c + digitVal d, rest)
    else none
  | _ => none

/-- Match of `\b(20\d{2})\b` exactly at the current position (`prev` is the
preceding character): the second season pattern of
`EntityExtractor._extract_season`. -/
def matchBareYearHere (prev : Option Char) (cs : List Char) : Option Nat :=
  match matchYearDigits cs with
  | some (y, rest) => if prevOk prev && boundaryAfter rest then some y else none
  | none => none

/-- Scan of `re.search` for `\b(20\d{2})\b`: the leftmost match wins. -/
def findBareYear : Option Char → List Char → Option Nat
  | _, [] => none
  | prev, c :: cs =>
    match matchBareYearHere prev (c :: cs) with
    | some y => some y
    | none => findBareYear (some c) cs

/-- Try `\d{2}\b` at the head of the list, returning group 3 of the first
season pattern (the two trailing digits, as a string). -/
def matchTwoDigitsEnd : List Char → Option String
  | c :: d :: rest =>
    if c.isDigit && d.isDigit && boundaryAfter rest then
      some (String.mk [c, d])
    else none
  | _ => none

/-- Candidate continuations for `[-\s]?(20)?` after the first year of
pattern `\b(20\d{2})[-\s]?(20)?(\d{2})\b`, in the greedy backtracking order
of Python's `re` (separator consumed first, then the optional literal
`20`). -/
def p1Candidates (rest : List Char) : List (List Char) :=
  let afterSep : List (List Char) :=
    match rest with
    | c :: rs => if c = '-' || c.isWhitespace then [rs] else []
    | [] => []
  ((afterSep ++ [rest]).map (fun r =>
    match r with
    | '2' :: '0' :: rs => [rs, r]
    | _ => [r])).flatten

/-- Match of `\b(20\d{2})[-\s]?(20)?(\d{2})\b` exactly at the current
position: the first season pattern of `EntityExtractor._extract_season`.
Returns `(group 1, group 3)`. -/
def matchSeasonRangeHere (prev : Option Char) (cs : List Char) :
    Option (Nat × String) :=
  match matchYearDigits cs with
  | some (y, rest) =>
    if prevOk prev then
      match (p1Candidates rest).findSome? matchTwoDigitsEnd with
      | some g3 => some (y, g3)
      | none => none
    else none
  | none => none

/-- Scan of `re.search` for the `YYYY-YY` / `YYYY-YYYY` season pattern. -/
def findSeasonRange : Option Char → List Char → Option (Nat × String)
  | _, [] => none
  | prev, c :: cs =>
    match matchSeasonRangeHere prev (c :: cs) with
    | some r => some r
    | none => findSeasonRange (some c) cs

/-- Python's `str(year)[-2:]`: the last two characters of the decimal
representation. -/
def lastTwo (s : String) : String :=
  String.mk (s.toList.drop (s.toList.length - 2))

/-- The check `"all star" in query.lower() or "all-star" in query.lower()`
of `_extract_season`. -/
def mentionsAllStar (query : String) : Bool :=
  containsChars "all star".toList (lowerChars query) ||
  containsChars "all-star".toList (lowerChars query)

/-- Embedding of `EntityExtractor._extract_season` (`entity_extractor.py`):
first try the
`YYYY-YY` / `YYYY-YYYY` range pattern, then a bare `YYYY`; a bare year is the
season ending in that year for All-Star queries and for years up to the
current calendar year (`datetime.now().year`, passed as `currentYear`), and
the season starting in that year for future years; `none` when no pattern
matches. -/
def extract_season (query : String) (currentYear : Nat) : Option String :=
  match findSeasonRange none query.toList with
  | some (year1, year2Digits) => some (toString year1 ++ "-" ++ year2Digits)
  | none =>
    match findBareYear none query.toList with
    | some year =>
      if mentionsAllStar query then
        some (toString (year - 1) ++ "-" ++ lastTwo (toString year))
      else if year ≤ currentYear then
        some (toString (year - 1) ++ "-" ++ lastTwo (toString year))
      else
        some (toString year ++ "-" ++ lastTwo (toString (year + 1)))
    | none => none

end PlayDex.EntityExtractor

namespace PlayDex.VideoSearch

/-- One row of the `playbyplayv2` play-by-play DataFrame, restricted to the
fields read by `VideoSearch.search_clips` (`video_search.py`); a pandas `NaN`
description is `none`. -/
structure PbpPlay where
  eventnum : Nat
  period : Nat
  pctimestring : String
  homedescription : Option String
  visitordescription : Option String
  deriving DecidableEq, Repr

/-- Anchored match of `^P\.\d+$` for a literal P given as `pre` (which
includes the trailing dot): the whole string is `pre` followed by one or
more digits — the sub-second clock regexes of `search_clips`. -/
def sub_second_match (pre : String) (s : String) : Bool :=
  startsWithChars pre.toList s.toList &&
  !(s.toList.drop pre.toList.length).isEmpty &&
  (s.toList.drop pre.toList.length).all Char.isDigit

/-- The buzzer-beater time mask of `search_clips` (lines 336-341):
`^0:00$`, `^0:0\.\d+$`, `^0:01$` or `^0:1\.\d+$`. -/
def bb_time_mask (s : String) : Bool :=
  s == "0:00" || sub_second_match "0:0." s ||
  s == "0:01" || sub_second_match "0:1." s

/-- The game-winner time mask of `search_clips` (lines 412-415):
only `^0:00$` or `^0:0\.\d+$`. -/
def gw_time_mask (s : String) : Bool :=
  s == "0:00" || sub_second_match "0:0." s

/-- Case-insensitive `MISS` containment of a description column, with
pandas `na=False` (a missing description never counts as a miss). -/
def descMiss (d : Option String) : Bool :=
  match d with
  | none => false
  | some s => containsCI "miss" s

/-- A play passes the miss filter when neither description contains `MISS`
(lines 345-348 and 421-424 of `search_clips`). -/
def notMissPlay (p : PbpPlay) : Bool :=
  !descMiss p.homedescription && !descMiss p.visitordescription

/-- The buzzer-beater branch of `search_clips` (lines 334-348): keep plays
whose clock matches the last-second mask, then drop missed attempts. -/
def bb_filter (plays : List PbpPlay) : List PbpPlay :=
  (plays.filter (fun p => bb_time_mask p.pctimestring)).filter notMissPlay

/-- The `winning_plays` loop of the game-winner branch (lines 428-449):
every branch of the loop body — parsable margin, unparsable margin, empty
margin — appends the play, so the loop rebuilds the list unchanged. -/
def gw_keep_winning (plays : List PbpPlay) : List PbpPlay :=
  plays.foldl (fun acc p => acc ++ [p]) []

/-- The game-winner branch of `search_clips` (lines 406-449, with no shot
type requested): keep plays in period 4 or overtime whose clock matches the
game-winner mask, drop missed attempts, then run the `winning_plays` loop. -/
def gw_filter (plays : List PbpPlay) : List PbpPlay :=
  gw_keep_winning
    ((plays.filter
        (fun p => decide (4 ≤ p.period) && gw_time_mask p.pctimestring)).filter
      notMissPlay)

/-- Specification-level predicate, following the spec's words: the clock
string is an entire sub-second variant `pre` followed by at least one
digit. -/
def SpecSubSecond (pre : String) (s : String) : Prop :=
  ∃ ds : List Char, ds ≠ [] ∧ (∀ c ∈ ds, c.isDigit = true) ∧
    s.toList = pre.toList ++ ds

/-- Specification-level predicate: the clock matches a last-second pattern
(`0:00`, `0:01`, or a sub-second variant). -/
def SpecLastSecondClock (s : String) : Prop :=
  s = "0:00" ∨ s = "0:01" ∨ SpecSubSecond "0:0." s ∨ SpecSubSecond "0:1." s

/-- Specification-level predicate: the clock reads `0:00` or a sub-second
variant of it (strictly below one second). -/
def SpecZeroSecondClock (s : String) : Prop :=
  s = "0:00" ∨ SpecSubSecond "0:0." s

/-- One accepted search result, restricted to the fields the merge, sort and
paginate steps of `search_clips` read (`metadata.date` modelled as a day
ordinal). -/
structure VSItem where
  date : Nat
  gameId : String
  eventnum : Nat
  deriving DecidableEq, Repr

/-- The comparison used to sort results most recent first
(`key=lambda x: x.metadata.date, reverse=True`). -/
def dateDesc (a b : VSItem) : Bool := decide (b.date ≤ a.date)

/-- The sequential accumulation of per-game results into `all_results`
(`all_results.append` / `.extend` over the games loop of `search_clips`). -/
def gather_results {γ : Type} (perGame : γ → List VSItem) (games : List γ) :
    List VSItem :=
  games.foldl (fun acc g => acc ++ perGame g) []

/-- Line 530 of `search_clips`: sort all gathered results by date, most
recent first. -/
def sort_by_date_desc (results : List VSItem) : List VSItem :=
  results.mergeSort dateDesc

/-- The Python slice `results[offset : offset + limit]`
(lines 533-535 of `search_clips`, also `playdex_search.py` line 71 and
`fast_search.py` line 75). -/
def paginate {α : Type} (results : List α) (offset limit : Nat) : List α :=
  (results.drop offset).take limit

/-- A made three-point shot at clock `0:01` in the 4th period — a play the
last-second mask accepts but the game-winner mask rejects. -/
def playQ4At001 : PbpPlay :=
  ⟨7, 4, "0:01", some "James 26' 3PT Jump Shot (30 PTS)", none⟩

/-- A made shot at clock `0:00` in the 4th period. -/
def playQ4At000 : PbpPlay :=
  ⟨5, 4, "0:00", some "Lillard 37' 3PT Jump Shot (37 PTS)", none⟩

/-- A made shot at clock `0:00` in the 2nd period. -/
def playQ2At000 : PbpPlay :=
  ⟨3, 2, "0:00", some "Curry 28' 3PT Jump Shot (14 PTS)", none⟩

/-- The tail of `VideoSearch.search_clips` (lines 520-559): gather all
per-game results, sort globally by date descending, apply the
`(offset, limit)` window, and resolve a video link for each result of the
window only (the second component counts the `get_video_url` calls). -/
def search_clips_window {γ : Type} (perGame : γ → List VSItem)
    (games : List γ) (limit offset : Nat) : List VSItem × Nat :=
  let allResults := gather_results perGame games
  let sorted := sort_by_date_desc allResults
  let page := paginate sorted offset limit
  (page, page.length)

end PlayDex.VideoSearch

namespace PlayDex.FastSearch

/-- One hard-coded play of the known-fact table of `fast_search.py`. -/
structure KnownPlay where
  game_id : String
  event : Nat
  desc : String
  date : String
  deriving DecidableEq, Repr

/-- The `known_buzzer_beaters` table of `FastSearch.search_clips`
(`fast_search.py` lines 27-38), keyed by player id. -/
def known_buzzer_beaters : List (String × List KnownPlay) :=
  [("203081",
    [⟨"0041800141", 461, "Lillard 37' 3PT Buzzer Beater", "2019-04-23"⟩,
     ⟨"0021300855", 683, "Lillard 3PT Buzzer Beater vs HOU", "2014-05-02"⟩]),
   ("201939",
    [⟨"0021500824", 467, "Curry Deep 3PT Buzzer Beater", "2016-02-27"⟩]),
   ("2544",
    [⟨"0041700305", 477, "James Buzzer Beater vs TOR", "2018-05-05"⟩])]

/-- Embedding of `FastSearch.search_clips` (`fast_search.py`): for a
buzzer-beater intent, look the player up in the known-fact table and return
the paginated entries; everything else yields no results. -/
def search_clips_fast (playerId : String) (isBuzzerBeater : Bool)
    (limit offset : Nat) : List KnownPlay :=
  let results :=
    if isBuzzerBeater then
      match lookupAssoc playerId known_buzzer_beaters with
      | some plays => plays
      | none => []
    else []
  VideoSearch.paginate results offset limit

end PlayDex.FastSearch

namespace PlayDex.Endpoint

open PlayDex.VideoSearch

/-- What the `/search` endpoint hands back for the regular (non-last-second)
branch, together with whether the known-fact `fast_search` service was ever
consulted while producing it. -/
structure Outcome where
  results : List VSItem
  hasMore : Bool
  fastSearchConsulted : Bool
  deriving DecidableEq, Repr

/-- The regular branch of `search_clips` in
`app/api/v1/endpoints/search.py` (lines 74-97, non-exception path):
the primary engine (`playdex_search.search_clips`, which windows its own
candidate list) runs first; when its page is empty and `offset = 0`, the
deep scan (`video_search.search_clips`, which sorts its gathered candidates
by date and windows them) runs as fallback.  `fast_search` is instantiated
by the module (line 20) but never invoked, so `fastSearchConsulted` is
`false` on every path. -/
def searchEndpointRegular (primaryAll deepScanAll : List VSItem)
    (limit offset : Nat) : Outcome :=
  let primaryPage := paginate primaryAll offset limit
  if primaryPage.isEmpty && offset == 0 then
    let deepPage := paginate (sort_by_date_desc deepScanAll) offset limit
    { results := deepPage, hasMore := deepPage.length == limit,
      fastSearchConsulted := false }
  else
    { results := primaryPage, hasMore := primaryPage.length == limit,
      fastSearchConsulted := false }

end PlayDex.Endpoint

namespace PlayDex.Retry

/-- Outcome of one play-by-play fetch with retries: the final result, the
number of upstream call attempts made, and the sleeps (in seconds) inserted
between attempts. -/
structure FetchOutcome (α : Type) where
  result : Except Unit α
  calls : Nat
  sleeps : List Nat

/-- The backoff of `search_clips` (`video_search.py` lines 309-311):
`wait_time = 2 * (attempt + 1)` seconds before the next attempt. -/
def backoff (attempt : Nat) : Nat := 2 * (attempt + 1)

/-- The retry loop `for attempt in range(3)` of `search_clips`
(`video_search.py` lines 302-314): `call n` is the outcome of the upstream
`PlayByPlayV2` request on attempt `n` (`Except.error` for a timeout or
connection error); after a failure with retries remaining the loop sleeps
`backoff attempt` and tries again, and the failure of the last attempt is
re-raised. -/
def retryFrom {α : Type} (call : Nat → Except Unit α) :
    Nat → Nat → FetchOutcome α
  | _, 0 => ⟨Except.error (), 0, []⟩
  | attempt, remaining + 1 =>
    match call attempt with
    | Except.ok a => ⟨Except.ok a, 1, []⟩
    | Except.error e =>
      if remaining = 0 then ⟨Except.error e, 1, []⟩
      else
        let out := retryFrom call (attempt + 1) remaining
        ⟨out.result, out.calls + 1, backoff attempt :: out.sleeps⟩

/-- One play-by-play fetch with up to 3 attempts, starting at attempt 0. -/
def fetch_with_retry {α : Type} (call : Nat → Except Unit α) :
    FetchOutcome α :=
  retryFrom call 0 3

/-- The sequential games loop of `search_clips` (`video_search.py`
lines 283-518): each game's play-by-play is fetched with retries; on success
the game's classified plays extend the accumulator, and a fetch that still
fails after the retries is caught by the per-game `except` (lines 516-518),
which skips the game and continues. -/
def scan_games {α γ : Type} (fetchGame : γ → Nat → Except Unit (List α))
    (classify : γ → List α → List α) (games : List γ) : List α :=
  games.foldl
    (fun acc g =>
      match (fetch_with_retry (fetchGame g)).result with
      | Except.ok plays => acc ++ classify g plays
      | Except.error _ => acc)
    []

end PlayDex.Retry

namespace PlayDex.Engine

/-- Python's `str.lower()` packaged back into a `String`. -/
def lowerStr (s : String) : String := String.mk (lowerChars s)

/-- Python's `str.upper()` packaged back into a `String`. -/
def upperStr (s : String) : String := String.mk (upperChars s)

/-- Embedding of `SearchEngine.map_player_team_ids`
(`playdex_engine/search_engine.py` lines 449-520).  `resolvedTeamId`
abstracts the upstream-data team resolution of lines 460-506 (career-stats
season scan, the hard-coded LeBron James season table, then the current-team
fallback); when all of those fail the function returns the
`(None, None, None)` triple, here `none`.  An unknown player name or an
unknown supplied opponent team name raises a `ValueError` that the
function's own `except` turns into the same `(None, None, None)` triple. -/
def map_player_team_ids (activePlayers teamIdDict : List (String × Nat))
    (resolvedTeamId : Option Nat) (playerName : String)
    (teamName : Option String) : Option (Nat × Nat × Option Nat) :=
  match lookupAssoc (lowerStr playerName) activePlayers with
  | none => none
  | some playerId =>
    match resolvedTeamId with
    | none => none
    | some teamId =>
      match teamName with
      | none => some (playerId, teamId, none)
      | some tn =>
        match lookupAssoc (upperStr tn) teamIdDict with
        | none => none
        | some opponentId => some (playerId, teamId, some opponentId)

/-- The retrieval part of `SearchEngine.query`
(`playdex_engine/search_engine.py` lines 541-567): map the player and team
ids first; when that fails, return an empty result set without running any
fetch; otherwise run one `fetch_videos` call per context measure (default
`["PTS"]`) and concatenate.  The second component counts the `fetch_videos`
invocations. -/
def query_engine {V : Type} (activePlayers teamIdDict : List (String × Nat))
    (resolvedTeamId : Option Nat) (playerName : String)
    (teamName : Option String) (fetchVideos : String → List V)
    (contextMeasures : List String) : List V × Nat :=
  match map_player_team_ids activePlayers teamIdDict resolvedTeamId
      playerName teamName with
  | none => ([], 0)
  | some _ =>
    let measures := if contextMeasures.isEmpty then ["PTS"] else contextMeasures
    (measures.foldl (fun acc m => acc ++ fetchVideos m) [], measures.length)

/-- The score columns of a processed video row (`hpb`, `hpa`, `vpb`, `vpa`
of `process_videos` in `playdex_engine/utils.py`). -/
structure ScoreCols where
  hpb : Int
  hpa : Int
  vpb : Int
  vpa : Int
  deriving DecidableEq, Repr

/-- One processed row of the `videodetailsasset` playlist after
`process_videos` (`playdex_engine/utils.py`): `scores` is `none` when the
upstream record lacks the score columns, and `timeInSeconds` is the
`TimeInSeconds` value derived from the `Clock` column by
`_time_to_seconds` (`none` for an unparsable or missing clock). -/
structure VideoRow where
  gameId : String
  eventIndex : Nat
  period : Nat
  timeInSeconds : Option ℚ
  scores : Option ScoreCols
  deriving DecidableEq

/-- The `IsLastPeriod` column of `filter_with_score_specifiers`
(`search_engine.py` line 196): period 4 or overtime. -/
def IsLastPeriod (v : VideoRow) : Bool := decide (4 ≤ v.period)

/-- The `TimeInSeconds <= 1` comparison of the game-winner branch; a pandas
comparison against a missing value is false. -/
def timeLEOne (v : VideoRow) : Bool :=
  match v.timeInSeconds with
  | some t => decide (t ≤ 1)
  | none => false

/-- Embedding of `SearchEngine.filter_with_score_specifiers`
(`search_engine.py` lines 178-233) for the response shape that carries a
`Clock` column (so `TimeInSeconds` is derived) and the score columns when
`scores` is `some`:
`'BB'` returns the DataFrame unchanged (lines 198-201);
`'GW'` keeps last-period rows whose time is at most one second;
`'GT'` keeps rows whose score differential after the play is zero;
`'LT'` keeps rows whose score differential changes sign across the play
(rows without score columns are never filtered by `'GT'`/`'LT'`, as the
column check of line 220 fails). -/
def filter_with_score_specifiers (scoreSpecifier : String)
    (df : List VideoRow) : List VideoRow :=
  if scoreSpecifier = "BB" then df
  else if scoreSpecifier = "GW" then
    (df.filter IsLastPeriod).filter timeLEOne
  else if scoreSpecifier = "GT" then
    df.filter (fun v =>
      match v.scores with
      | some s => decide (s.hpa - s.vpa = 0)
      | none => true)
  else if scoreSpecifier = "LT" then
    df.filter (fun v =>
      match v.scores with
      | some s =>
        decide ((s.hpb - s.vpb ≤ 0 ∧ 0 < s.hpa - s.vpa) ∨
                (0 ≤ s.hpb - s.vpb ∧ s.hpa - s.vpa < 0))
      | none => true)
  else df

end PlayDex.Engine

namespace PlayDex

theorem startsWithChars_iff (pat cs : List Char) :
    startsWithChars pat cs = true ↔ ∃ rest, cs = pat ++ rest := by
  induction pat generalizing cs with
  | nil => simp [startsWithChars]
  | cons a as ih =>
    cases cs with
    | nil => simp [startsWithChars]
    | cons b bs =>
      simp only [startsWithChars, Bool.and_eq_true, beq_iff_eq, ih,
        List.cons_append, List.cons.injEq]
      constructor
      · rintro ⟨rfl, rest, rfl⟩
        exact ⟨rest, rfl, rfl⟩
      · rintro ⟨rest, rfl, rfl⟩
        exact ⟨rfl, rest, rfl⟩

end PlayDex

namespace PlayDex.VideoSearch

theorem sub_second_match_iff (pre s : String) :
    sub_second_match pre s = true ↔ SpecSubSecond pre s := by
  unfold sub_second_match SpecSubSecond
  constructor
  · intro h
    simp only [Bool.and_eq_true] at h
    obtain ⟨⟨hpre, hne⟩, hall⟩ := h
    obtain ⟨rest, hrest⟩ := (startsWithChars_iff _ _).mp hpre
    have hdrop : s.toList.drop pre.toList.length = rest := by
      rw [hrest, List.drop_left]
    rw [hdrop] at hne hall
    refine ⟨rest, ?_, ?_, hrest⟩
    · intro hnil
      rw [hnil] at hne
      simp at hne
    · exact fun c hc => List.all_eq_true.mp hall c hc
  · rintro ⟨ds, hne, hdig, hs⟩
    have hdrop : s.toList.drop pre.toList.length = ds := by
      rw [hs, List.drop_left]
    simp only [Bool.and_eq_true]
    refine ⟨⟨(startsWithChars_iff _ _).mpr ⟨ds, hs⟩, ?_⟩, ?_⟩
    · rw [hdrop]
      cases ds with
      | nil => exact absurd rfl hne
      | cons c cs => simp
    · rw [hdrop]
      exact List.all_eq_true.mpr hdig

theorem bb_time_mask_iff (s : String) :
    bb_time_mask s = true ↔ SpecLastSecondClock s := by
  simp only [bb_time_mask, Bool.or_eq_true, beq_iff_eq, sub_second_match_iff,
    SpecLastSecondClock]
  tauto

theorem gw_time_mask_iff (s : String) :
    gw_time_mask s = true ↔ SpecZeroSecondClock s := by
  simp only [gw_time_mask, Bool.or_eq_true, beq_iff_eq, sub_second_match_iff,
    SpecZeroSecondClock]

theorem foldl_append_singleton {α : Type} (l acc : List α) :
    l.foldl (fun a p => a ++ [p]) acc = acc ++ l := by
  induction l generalizing acc with
  | nil => simp
  | cons x xs ih => simp [List.foldl_cons, ih]

theorem gw_keep_winning_eq (l : List PbpPlay) : gw_keep_winning l = l := by
  simpa [gw_keep_winning] using foldl_append_singleton l []

theorem mem_bb_filter (plays : List PbpPlay) (p : PbpPlay) :
    p ∈ bb_filter plays ↔
      p ∈ plays ∧ SpecLastSecondClock p.pctimestring ∧ notMissPlay p = true := by
  simp only [bb_filter, List.mem_filter, bb_time_mask_iff, and_assoc]

theorem mem_gw_filter (plays : List PbpPlay) (p : PbpPlay) :
    p ∈ gw_filter plays ↔
      p ∈ plays ∧ SpecZeroSecondClock p.pctimestring ∧ 4 ≤ p.period ∧
        notMissPlay p = true := by
  simp only [gw_filter, gw_keep_winning_eq, List.mem_filter,
    Bool.and_eq_true, decide_eq_true_eq, gw_time_mask_iff, and_assoc]
  tauto

theorem gather_results_foldl {γ : Type} (perGame : γ → List VSItem)
    (games : List γ) :
    ∀ acc, games.foldl (fun a g => a ++ perGame g) acc
      = acc ++ (games.map perGame).flatten := by
  induction games with
  | nil => intro acc; simp
  | cons g gs ih => intro acc; simp [List.foldl_cons, ih]

theorem gather_results_eq {γ : Type} (perGame : γ → List VSItem)
    (games : List γ) :
    gather_results perGame games = (games.map perGame).flatten := by
  simpa [gather_results] using gather_results_foldl perGame games []

theorem dateDesc_trans (a b c : VSItem) :
    dateDesc a b = true → dateDesc b c = true → dateDesc a c = true := by
  simp only [dateDesc, decide_eq_true_eq]
  omega

theorem dateDesc_total (a b : VSItem) : (dateDesc a b || dateDesc b a) = true := by
  simp only [dateDesc, Bool.or_eq_true, decide_eq_true_eq]
  omega

theorem sort_by_date_desc_perm (l : List VSItem) :
    (sort_by_date_desc l).Perm l :=
  List.mergeSort_perm l dateDesc

theorem sort_by_date_desc_sorted (l : List VSItem) :
    List.Pairwise (fun a b => b.date ≤ a.date) (sort_by_date_desc l) := by
  have h := List.sorted_mergeSort dateDesc_trans dateDesc_total l
  exact h.imp (fun hab => by simpa [dateDesc] using hab)

end PlayDex.VideoSearch

namespace PlayDex.EntityExtractor

theorem minByPriority_spec (ms : List String) :
    ∀ m : String,
      (minByPriority m ms = m ∨ minByPriority m ms ∈ ms) ∧
      priorityKey (minByPriority m ms) ≤ priorityKey m ∧
      ∀ x ∈ ms, priorityKey (minByPriority m ms) ≤ priorityKey x := by
  induction ms with
  | nil => intro m; exact ⟨Or.inl rfl, le_refl _, by simp⟩
  | cons y ys ih =>
    intro m
    have step : minByPriority m (y :: ys)
        = minByPriority (if priorityKey y < priorityKey m then y else m) ys := rfl
    obtain ⟨hmem, hself, hall⟩ := ih (if priorityKey y < priorityKey m then y else m)
    rw [step]
    by_cases h : priorityKey y < priorityKey m
    · rw [if_pos h] at hmem hself hall ⊢
      refine ⟨?_, ?_, ?_⟩
      · rcases hmem with h1 | h1
        · exact Or.inr (List.mem_cons.mpr (Or.inl h1))
        · exact Or.inr (List.mem_cons.mpr (Or.inr h1))
      · exact le_trans hself (le_of_lt h)
      · intro x hx
        rcases List.mem_cons.mp hx with h1 | h1
        · rw [h1]; exact hself
        · exact hall x h1
    · rw [if_neg h] at hmem hself hall ⊢
      refine ⟨?_, hself, ?_⟩
      · rcases hmem with h1 | h1
        · exact Or.inl h1
        · exact Or.inr (List.mem_cons.mpr (Or.inr h1))
      · intro x hx
        rcases List.mem_cons.mp hx with h1 | h1
        · rw [h1]; exact le_trans hself (le_of_not_lt h)
        · exact hall x h1

theorem extract_clutch_time_spec (q : String) :
    (extract_clutch_time q = none ↔ clutchMatches (lowerChars q) = []) ∧
      ∀ w, extract_clutch_time q = some w →
        w ∈ clutchMatches (lowerChars q) ∧
        ∀ w' ∈ clutchMatches (lowerChars q), priorityKey w ≤ priorityKey w' := by
  unfold extract_clutch_time
  cases hm : clutchMatches (lowerChars q) with
  | nil => simp
  | cons m ms =>
    refine ⟨by simp, ?_⟩
    intro w hw
    have hw' : minByPriority m ms = w := by
      simpa using hw
    obtain ⟨hmem, hself, hall⟩ := minByPriority_spec ms m
    rw [hw'] at hmem hself hall
    refine ⟨?_, ?_⟩
    · rcases hmem with h1 | h1
      · rw [h1]; exact List.mem_cons_self m ms
      · exact List.mem_cons_of_mem m h1
    · intro w' hw''
      rcases List.mem_cons.mp hw'' with h1 | h1
      · rw [h1]; exact hself
      · exact hall w' h1

end PlayDex.EntityExtractor

namespace PlayDex.Retry

theorem retryFrom_all_fail {α : Type} (call : Nat → Except Unit α)
    (h : ∀ n, call n = Except.error ()) :
    ∀ remaining attempt, (retryFrom call attempt remaining).result = Except.error ()
      ∧ (retryFrom call attempt remaining).calls = remaining := by
  intro remaining
  induction remaining with
  | zero => intro attempt; exact ⟨rfl, rfl⟩
  | succ r ih =>
    intro attempt
    simp only [retryFrom, h attempt]
    by_cases hr : r = 0
    · subst hr; simp
    · simp only [if_neg hr]
      exact ⟨(ih (attempt + 1)).1, by rw [(ih (attempt + 1)).2]⟩

theorem retryFrom_calls_le {α : Type} (call : Nat → Except Unit α) :
    ∀ remaining attempt, (retryFrom call attempt remaining).calls ≤ remaining := by
  intro remaining
  induction remaining with
  | zero => intro attempt; simp [retryFrom]
  | succ r ih =>
    intro attempt
    simp only [retryFrom]
    cases call attempt with
    | ok a => simp
    | error e =>
      by_cases h : r = 0
      · simp [h]
      · simp only [if_neg h]
        have := ih (attempt + 1)
        omega

theorem retryFrom_calls_pos {α : Type} (call : Nat → Except Unit α)
    (r attempt : Nat) : 1 ≤ (retryFrom call attempt (r + 1)).calls := by
  simp only [retryFrom]
  cases call attempt with
  | ok a => simp
  | error e =>
    by_cases h : r = 0
    · simp [h]
    · simp only [if_neg h]
      omega

theorem retryFrom_sleeps {α : Type} (call : Nat → Except Unit α) :
    ∀ remaining attempt, (retryFrom call attempt remaining).sleeps
      = (List.range ((retryFrom call attempt remaining).calls - 1)).map
          (fun i => backoff (attempt + i)) := by
  intro remaining
  induction remaining with
  | zero => intro attempt; simp [retryFrom]
  | succ r ih =>
    intro attempt
    simp only [retryFrom]
    cases call attempt with
    | ok a => simp
    | error e =>
      by_cases h : r = 0
      · simp [h]
      · simp only [if_neg h]
        obtain ⟨r', hr'⟩ : ∃ r', r = r' + 1 := ⟨r - 1, by omega⟩
        subst hr'
        have hpos := retryFrom_calls_pos call r' (attempt + 1)
        obtain ⟨c, hc⟩ : ∃ c, (retryFrom call (attempt + 1) (r' + 1)).calls = c + 1 :=
          ⟨_, (Nat.succ_pred_eq_of_pos hpos).symm⟩
        rw [ih (attempt + 1), hc]
        simp only [Nat.add_sub_cancel, List.range_succ_eq_map, List.map_cons,
          List.map_map]
        refine congrArg₂ _ (by simp) ?_
        have hfun : (fun i => backoff (attempt + 1 + i))
            = ((fun i => backoff (attempt + i)) ∘ Nat.succ) := by
          funext i
          simp only [Function.comp_apply]
          congr 1
          omega
        rw [hfun]

theorem fetch_with_retry_calls_le {α : Type} (call : Nat → Except Unit α) :
    (fetch_with_retry call).calls ≤ 3 :=
  retryFrom_calls_le call 3 0

theorem fetch_with_retry_sleeps {α : Type} (call : Nat → Except Unit α) :
    (fetch_with_retry call).sleeps
      = (List.range ((fetch_with_retry call).calls - 1)).map backoff := by
  have h := retryFrom_sleeps call 3 0
  simpa [fetch_with_retry] using h

theorem fetch_with_retry_all_fail {α : Type} (call : Nat → Except Unit α)
    (h : ∀ n, call n = Except.error ()) :
    (fetch_with_retry call).result = Except.error ()
      ∧ (fetch_with_retry call).calls = 3 :=
  retryFrom_all_fail call h 3 0

theorem scan_games_skip {α γ : Type} (fetchGame : γ → Nat → Except Unit (List α))
    (classify : γ → List α → List α) (pre post : List γ) (g : γ)
    (h : ∀ n, fetchGame g n = Except.error ()) :
    scan_games fetchGame classify (pre ++ g :: post)
      = scan_games fetchGame classify (pre ++ post) := by
  unfold scan_games
  rw [List.foldl_append, List.foldl_append, List.foldl_cons]
  have hr : (fetch_with_retry (fetchGame g)).result = Except.error () :=
    (fetch_with_retry_all_fail (fetchGame g) h).1
  rw [hr]

end PlayDex.Retry

namespace PlayDex.Claims

open PlayDex.EntityExtractor PlayDex.VideoSearch PlayDex.Endpoint
open PlayDex.Retry PlayDex.Engine PlayDex.FastSearch

/-- **C1** (counterexample). The claim states that a candidate play
classifies as a game-winner exactly when it satisfies the buzzer-beater
clock pattern (`0:00`, `0:01`, or sub-second variants), is not a miss, and
its period is at least 4.  The made shot at clock `0:01` in period 4
satisfies that right-hand side and is classified a buzzer-beater, yet the
game-winner branch rejects it: its clock mask admits only `0:00` and
`0:0.x`. -/
theorem C1_counterexample :
    SpecLastSecondClock playQ4At001.pctimestring ∧
    4 ≤ playQ4At001.period ∧
    notMissPlay playQ4At001 = true ∧
    playQ4At001 ∈ bb_filter [playQ4At001] ∧
    playQ4At001 ∉ gw_filter [playQ4At001] := by
  exact ⟨Or.inr (Or.inl rfl), by decide, by decide, by decide, by decide⟩

/-- **C1** (amended). A candidate play classifies as a buzzer-beater exactly
when its clock string matches a last-second pattern (`0:00`, `0:01`, or a
sub-second variant) and neither description is a missed attempt; it
classifies as a game-winner exactly when its clock matches the *stricter*
zero-second pattern (`0:00` or a `0:0.x` sub-second variant — `0:01` does
not qualify), its period is at least 4, and it is not a miss.  In
particular, a non-miss play at clock `0:00` in period 4 is both a
buzzer-beater and a game-winner, and the same play in period 2 is a
buzzer-beater but not a game-winner. -/
theorem C1_play_classification :
    (∀ (plays : List PbpPlay) (p : PbpPlay),
        (p ∈ bb_filter plays ↔
          p ∈ plays ∧ SpecLastSecondClock p.pctimestring ∧
            notMissPlay p = true) ∧
        (p ∈ gw_filter plays ↔
          p ∈ plays ∧ SpecZeroSecondClock p.pctimestring ∧ 4 ≤ p.period ∧
            notMissPlay p = true)) ∧
    (playQ4At000 ∈ bb_filter [playQ4At000] ∧
      playQ4At000 ∈ gw_filter [playQ4At000]) ∧
    (playQ2At000 ∈ bb_filter [playQ2At000] ∧
      playQ2At000 ∉ gw_filter [playQ2At000]) := by
  refine ⟨fun plays p => ⟨mem_bb_filter plays p, mem_gw_filter plays p⟩,
    ⟨by decide, by decide⟩, ⟨by decide, by decide⟩⟩

/-- **C1** (witness): the amended classification instantiated at the made
`0:00` shot in period 4. -/
theorem C1_witness :
    playQ4At000 ∈ gw_filter [playQ4At000] ↔
      playQ4At000 ∈ [playQ4At000] ∧
        SpecZeroSecondClock playQ4At000.pctimestring ∧
        4 ≤ playQ4At000.period ∧ notMissPlay playQ4At000 = true :=
  (C1_play_classification.1 [playQ4At000] playQ4At000).2

/-- **C2**. The page a `video_search` request returns equals the
`[offset, offset + limit)` slice of the concatenation of all per-game
candidate results, sorted by play date descending (the sort is a
permutation of the concatenation and is ordered by date, most recent
first); pagination is applied only after the global sort, and the per-play
video-link resolution count equals the page length, hence is at most
`limit`. -/
theorem C2_global_sort_then_paginate :
    ∀ (γ : Type) (perGame : γ → List VSItem) (games : List γ)
      (limit offset : Nat),
      (search_clips_window perGame games limit offset).1
          = paginate (sort_by_date_desc ((games.map perGame).flatten))
              offset limit
      ∧ (sort_by_date_desc ((games.map perGame).flatten)).Perm
          ((games.map perGame).flatten)
      ∧ List.Pairwise (fun a b => b.date ≤ a.date)
          (sort_by_date_desc ((games.map perGame).flatten))
      ∧ (search_clips_window perGame games limit offset).2 ≤ limit := by
  intro γ perGame games limit offset
  refine ⟨?_, sort_by_date_desc_perm _, sort_by_date_desc_sorted _, ?_⟩
  · simp [search_clips_window, gather_results_eq]
  · simp only [search_clips_window, paginate]
    exact List.length_take_le _ _

end PlayDex.Claims

namespace PlayDex.Claims

open PlayDex.EntityExtractor PlayDex.VideoSearch PlayDex.Endpoint
open PlayDex.Retry PlayDex.Engine PlayDex.FastSearch

/-- **C3**. For a query with a bare four-digit year and no `YYYY-YY` /
`YYYY-YYYY` range: an All-Star-flagged query resolves to the season ending
in that year; otherwise a year not exceeding the current calendar year
resolves to the season ending in that year, and a future year to the season
starting that year; with no year pattern the season is left unset.
Concretely: `"LeBron James dunks in 2015"` yields `"2014-15"`, a future
`2026` yields `"2026-27"`, and `"2022 all star dunks"` yields
`"2021-22"`. -/
theorem C3_season_resolution :
    (∀ (q : String) (cy y : Nat),
        findSeasonRange none q.toList = none →
        findBareYear none q.toList = some y →
          (mentionsAllStar q = true →
            extract_season q cy
              = some (toString (y - 1) ++ "-" ++ lastTwo (toString y))) ∧
          (mentionsAllStar q = false → y ≤ cy →
            extract_season q cy
              = some (toString (y - 1) ++ "-" ++ lastTwo (toString y))) ∧
          (mentionsAllStar q = false → cy < y →
            extract_season q cy
              = some (toString y ++ "-" ++ lastTwo (toString (y + 1))))) ∧
    (∀ (q : String) (cy : Nat),
        findSeasonRange none q.toList = none →
        findBareYear none q.toList = none → extract_season q cy = none) ∧
    extract_season "LeBron James dunks in 2015" 2026 = some "2014-15" ∧
    extract_season "playoffs in 2026" 2025 = some "2026-27" ∧
    extract_season "2022 all star dunks" 2026 = some "2021-22" := by
  refine ⟨?_, ?_, by decide, by decide, by decide⟩
  · intro q cy y hrange hyear
    unfold extract_season
    rw [hrange, hyear]
    refine ⟨fun hall => ?_, fun hall hle => ?_, fun hall hlt => ?_⟩
    · simp [hall]
    · simp [hall, hle]
    · simp [hall, Nat.not_le.mpr hlt]
  · intro q cy hrange hyear
    unfold extract_season
    rw [hrange, hyear]

/-- **C3** (witness): the general bare-year rule applied to the concrete
query `"LeBron James dunks in 2015"` with current year 2026. -/
theorem C3_witness :
    extract_season "LeBron James dunks in 2015" 2026
      = some (toString (2015 - 1) ++ "-" ++ lastTwo (toString 2015)) :=
  ((C3_season_resolution.1 "LeBron James dunks in 2015" 2026 2015
    (by decide) (by decide)).2.1 (by decide) (by decide))

/-- **C4**. When several clutch-window phrases match a query, the extractor
returns the matched window of smallest priority key under the order
Last 10 Seconds > Last 1 Minute > Last 5 Minutes (the smallest time span);
a query matching both `"last second"` and `"clutch"` yields
`"Last 10 Seconds"`, and a query matching no clutch phrase yields no
window. -/
theorem C4_clutch_priority :
    (∀ q : String,
        (extract_clutch_time q = none ↔ clutchMatches (lowerChars q) = []) ∧
        ∀ w, extract_clutch_time q = some w →
          w ∈ clutchMatches (lowerChars q) ∧
          ∀ w' ∈ clutchMatches (lowerChars q), priorityKey w ≤ priorityKey w') ∧
    extract_clutch_time "curry clutch last second shots" = some "Last 10 Seconds" ∧
    extract_clutch_time "curry dunks in the clutch" = some "Last 5 Minutes" ∧
    extract_clutch_time "curry dunks in 2015" = none := by
  exact ⟨fun q => extract_clutch_time_spec q, by decide, by decide, by decide⟩

/-- **C4** (witness): the minimality property instantiated at the query
matching both `"clutch"` and `"last second"`. -/
theorem C4_witness :
    "Last 10 Seconds" ∈ clutchMatches (lowerChars "curry clutch last second shots") ∧
    ∀ w' ∈ clutchMatches (lowerChars "curry clutch last second shots"),
      priorityKey "Last 10 Seconds" ≤ priorityKey w' :=
  (C4_clutch_priority.1 "curry clutch last second shots").2
    "Last 10 Seconds" (by decide)

/-- **C8**. The extractor returns at most one score-specifier code (an
`Option` over `GT`, `LT`, `BB`, `GW`); when phrases from several classes
match, the code kept is the first match in `SCORE_SPECIFIER_MAP` iteration
order, not necessarily the phrase appearing first in the query text: in
`"game winner then game tying shot"` the phrase `"game winner"` appears
first in the text and matches, yet the extractor returns `GT`. -/
theorem C8_score_specifier_first_match :
    (∀ q : String,
        extract_score_specifiers q
          = ((SCORE_SPECIFIER_MAP.filter
              (fun p => wbSearch p.1 q.toList)).map (·.2)).head? ∧
        ∀ c, extract_score_specifiers q = some c →
          c ∈ (["GT", "LT", "BB", "GW"] : List String)) ∧
    (wbSearch "game winner" ("game winner then game tying shot").toList = true ∧
      extract_score_specifiers "game winner then game tying shot" = some "GT") := by
  refine ⟨fun q => ⟨rfl, fun c hc => ?_⟩, by decide, by decide⟩
  have hmem : c ∈ (SCORE_SPECIFIER_MAP.filter
      (fun p => wbSearch p.1 q.toList)).map (·.2) := by
    unfold extract_score_specifiers at hc
    exact List.mem_of_mem_head? (by rw [hc]; rfl)
  obtain ⟨p, hp, rfl⟩ := List.mem_map.mp hmem
  have hp' : p ∈ SCORE_SPECIFIER_MAP := (List.mem_filter.mp hp).1
  have hall : ∀ p ∈ SCORE_SPECIFIER_MAP,
      p.2 ∈ (["GT", "LT", "BB", "GW"] : List String) := by decide
  exact hall p hp'

/-- **C8** (witness): the single-code property instantiated at a concrete
buzzer-beater query. -/
theorem C8_witness :
    "BB" ∈ (["GT", "LT", "BB", "GW"] : List String) :=
  (C8_score_specifier_first_match.1 "dame buzzer beater").2 "BB" (by decide)

end PlayDex.Claims

namespace PlayDex.Claims

open PlayDex.EntityExtractor PlayDex.VideoSearch PlayDex.Endpoint
open PlayDex.Retry PlayDex.Engine PlayDex.FastSearch

/-- **C5** (counterexample). The claim states the known-fact fallback table
is consulted exactly when both the primary engine and the deep scan return
empty.  With both strategies empty at `offset = 0`, the endpoint returns an
empty result set without ever consulting `fast_search` — even though the
known-fact table holds entries (here, for player id `"203081"`) that the
claimed fallback would have returned. -/
theorem C5_counterexample :
    (searchEndpointRegular [] [] 15 0).fastSearchConsulted = false ∧
    (searchEndpointRegular [] [] 15 0).results = [] ∧
    search_clips_fast "203081" true 15 0 ≠ [] := by
  refine ⟨rfl, ?_, by decide⟩
  have h : sort_by_date_desc [] = [] := (sort_by_date_desc_perm []).eq_nil
  simp [searchEndpointRegular, paginate, h]

/-- **C5** (amended). For a non-last-second search at `offset = 0` whose
primary engine strategy returns zero results, the final result set is the
deep scan's window and has size `min(limit, N)` for `N` deep-scan
candidates.  The known-fact fallback table is *never* consulted — the
`fast_search` service is instantiated but not wired into the endpoint — so
when both strategies are empty the request returns an empty result set. -/
theorem C5_fallback :
    (∀ (deepScanAll : List VSItem) (limit : Nat),
        (searchEndpointRegular [] deepScanAll limit 0).results.length
          = min limit deepScanAll.length) ∧
    (∀ (primaryAll deepScanAll : List VSItem) (limit offset : Nat),
        (searchEndpointRegular primaryAll deepScanAll limit
            offset).fastSearchConsulted = false) ∧
    (∀ (limit offset : Nat),
        (searchEndpointRegular [] [] limit offset).results = []) := by
  refine ⟨?_, ?_, ?_⟩
  · intro deepScanAll limit
    have hlen : (sort_by_date_desc deepScanAll).length = deepScanAll.length :=
      (sort_by_date_desc_perm deepScanAll).length_eq
    simp [searchEndpointRegular, paginate, List.length_take, hlen]
  · intro primaryAll deepScanAll limit offset
    simp only [searchEndpointRegular]
    by_cases h : ((paginate primaryAll offset limit).isEmpty && offset == 0) = true
    · rw [if_pos h]
    · rw [if_neg h]
  · intro limit offset
    have h : sort_by_date_desc [] = [] := (sort_by_date_desc_perm []).eq_nil
    simp only [searchEndpointRegular, paginate, List.drop_nil, List.take_nil, h]
    by_cases ho : (offset == 0) = true
    · simp [ho]
    · simp [ho]

/-- **C6**. Every individual play-by-play fetch is attempted at most 3
times; the sleeps inserted between attempts follow the linear backoff
`2 * (attempt + 1)`; and when every attempt for one game fails, that game
contributes nothing while the scan of the remaining games is unchanged —
the request never fails as a whole because of that game. -/
theorem C6_retry_policy :
    ∀ (α γ : Type) (fetchGame : γ → Nat → Except Unit (List α))
      (classify : γ → List α → List α) (pre post : List γ) (g : γ),
      (∀ n, fetchGame g n = Except.error ()) →
        scan_games fetchGame classify (pre ++ g :: post)
            = scan_games fetchGame classify (pre ++ post)
        ∧ (∀ g' : γ, (fetch_with_retry (fetchGame g')).calls ≤ 3)
        ∧ (∀ g' : γ, (fetch_with_retry (fetchGame g')).sleeps
              = (List.range ((fetch_with_retry (fetchGame g')).calls - 1)).map
                  backoff)
        ∧ (fetch_with_retry (fetchGame g)).calls = 3
        ∧ (fetch_with_retry (fetchGame g)).result = Except.error () := by
  intro α γ fetchGame classify pre post g h
  exact ⟨scan_games_skip fetchGame classify pre post g h,
    fun g' => fetch_with_retry_calls_le _,
    fun g' => fetch_with_retry_sleeps _,
    (fetch_with_retry_all_fail _ h).2,
    (fetch_with_retry_all_fail _ h).1⟩

/-- **C6** (witness): the retry policy instantiated at a scan of three games
in which every attempt for game `0` times out while games `1` and `2`
succeed. -/
theorem C6_witness :
    scan_games (fun (g : Nat) (n : Nat) =>
        if g = 0 then Except.error () else Except.ok [g + n])
      (fun _ l => l) ([1] ++ 0 :: [2])
        = scan_games (fun (g : Nat) (n : Nat) =>
            if g = 0 then Except.error () else Except.ok [g + n])
          (fun _ l => l) ([1] ++ [2]) ∧
    (fetch_with_retry ((fun (g : Nat) (n : Nat) =>
        if g = 0 then Except.error () else Except.ok [g + n]) 0)).calls = 3 :=
  ⟨(C6_retry_policy Nat Nat
      (fun (g : Nat) (n : Nat) =>
        if g = 0 then Except.error () else Except.ok [g + n])
      (fun _ l => l) [1] [2] 0 (fun _n => rfl)).1,
   (C6_retry_policy Nat Nat
      (fun (g : Nat) (n : Nat) =>
        if g = 0 then Except.error () else Except.ok [g + n])
      (fun _ l => l) [1] [2] 0 (fun _n => rfl)).2.2.2.1⟩

/-- **C7**. When the resolved player name has no known player id, or the
supplied opponent team name has no known team id, the engine returns the
`(None, None, None)` triple, `query` aborts before invoking any retrieval
fetch, and the caller receives an empty result set instead of an error. -/
theorem C7_identity_resolution_aborts :
    ∀ (V : Type) (activePlayers teamIdDict : List (String × Nat))
      (resolvedTeamId : Option Nat) (playerName : String)
      (teamName : Option String) (fetchVideos : String → List V)
      (contextMeasures : List String),
      (lookupAssoc (lowerStr playerName) activePlayers = none ∨
        ∃ tn, teamName = some tn ∧
          lookupAssoc (upperStr tn) teamIdDict = none) →
        map_player_team_ids activePlayers teamIdDict resolvedTeamId
            playerName teamName = none
        ∧ (query_engine activePlayers teamIdDict resolvedTeamId playerName
            teamName fetchVideos contextMeasures).1 = []
        ∧ (query_engine activePlayers teamIdDict resolvedTeamId playerName
            teamName fetchVideos contextMeasures).2 = 0 := by
  intro V activePlayers teamIdDict resolvedTeamId playerName teamName
    fetchVideos contextMeasures h
  have habort : map_player_team_ids activePlayers teamIdDict resolvedTeamId
      playerName teamName = none := by
    rcases h with h1 | ⟨tn, rfl, h2⟩
    · unfold map_player_team_ids
      rw [h1]
    · unfold map_player_team_ids
      cases hp : lookupAssoc (lowerStr playerName) activePlayers with
      | none => rfl
      | some pid =>
        cases resolvedTeamId with
        | none => rfl
        | some tid => simp [h2]
  refine ⟨habort, ?_, ?_⟩ <;> unfold query_engine <;> rw [habort]

/-- **C7** (witness): an unknown player name aborts a concrete query with an
empty result set and zero fetches. -/
theorem C7_witness :
    (query_engine [("stephen curry", 201939)] [("LAKERS", 13)] (some 1)
        "Unknown Player" none (fun _ => [0]) ["PTS"]).1 = [] ∧
    (query_engine [("stephen curry", 201939)] [("LAKERS", 13)] (some 1)
        "Unknown Player" none (fun _ => [0]) ["PTS"]).2 = 0 :=
  ⟨(C7_identity_resolution_aborts Nat [("stephen curry", 201939)]
      [("LAKERS", 13)] (some 1) "Unknown Player" none (fun _ => [0]) ["PTS"]
      (Or.inl (by decide))).2.1,
   (C7_identity_resolution_aborts Nat [("stephen curry", 201939)]
      [("LAKERS", 13)] (some 1) "Unknown Player" none (fun _ => [0]) ["PTS"]
      (Or.inl (by decide))).2.2⟩

end PlayDex.Claims

namespace PlayDex.Claims

open PlayDex.EntityExtractor PlayDex.VideoSearch PlayDex.Endpoint
open PlayDex.Retry PlayDex.Engine PlayDex.FastSearch

/-- **C9**. The claimed invariant says a BuzzerBeater score specifier
implies the resolved intent carries the clutch window `Last 10 Seconds` and
that retrieval applies no additional stale clock-string filtering.  On the
query `"stephen curry buzzer beaters"` the extractor does return the `BB`
score specifier, and the `BB` branch of `filter_with_score_specifiers`
indeed leaves the DataFrame untouched — but no `CLUTCH_TIME_MAP` phrase
matches, so the extracted clutch window is `none`, not `Last 10 Seconds`,
contradicting the invariant the code's own comment asserts (`"Buzzer
beaters should now be handled via clutch_time parameter"`). -/
theorem C9_buzzer_beater_clutch_gap :
    extract_score_specifiers "stephen curry buzzer beaters" = some "BB" ∧
    extract_clutch_time "stephen curry buzzer beaters" = none ∧
    ∀ df : List VideoRow, filter_with_score_specifiers "BB" df = df := by
  refine ⟨by decide, by decide, fun df => rfl⟩

end PlayDex.Claims
